import Mathlib

/-!
Verification of the scratchpad sync server (operation store, broadcast hub,
connection session) against its specification.

The embedding mirrors `server/src/db.rs` and `server/src/handlers.rs`.
The SQLite-backed `Database` is modelled as an explicit state:

* the `ops` table is a list of rows kept in insertion order; its
  `INTEGER PRIMARY KEY AUTOINCREMENT` column is modelled by `next_rowid`
  (AUTOINCREMENT hands out 1, 2, 3, ... and never reuses a value, so for an
  insert-only table a counter starting at 1 is exact);
* SQLite's per-connection `last_insert_rowid()` bookkeeping is the
  `last_insert_rowid` field: it is updated by a successful `INSERT` and left
  untouched when `INSERT OR IGNORE` skips the row (its initial value on a
  fresh connection is 0);
* the `snapshots` table (primary key `workspace_id`) is a list of snapshot
  rows; `INSERT OR REPLACE` deletes any row with the same key and appends
  the new one;
* a `SELECT ... ORDER BY id ASC` is modelled by filtering the row list and
  sorting the result by rowid;
* the broadcast channel (`state.tx`) carries serialized `WsMessage`s; the
  serde round-trip on these plain data types is the identity, so the model
  lets events be `WsMessage` values directly;
* fallible storage I/O is modelled by an explicit per-call failure oracle
  (a list of Booleans consumed by the handler loops), since in the pure
  model an insert cannot fail by itself.
-/

namespace Scratchpad

/-- The wire/op record (`models.rs` `Op`): client-chosen `id` is the
idempotency key; `db_id` is filled in from the rowid when rows are read
back. -/
structure Op where
  db_id : Option Int := none
  id : String
  op_type : String
  payload : String
  timestamp : String
  client_id : Option String := none
deriving DecidableEq, Repr

/-- One row of the `ops` table as created by `Database::init`:
`id INTEGER PRIMARY KEY AUTOINCREMENT` (the server-assigned sequence),
the op columns, and `UNIQUE(workspace_id, op_id)`. -/
structure Row where
  rowid : Int
  workspace_id : String
  op_id : String
  op_type : String
  payload : String
  timestamp : String
  client_id : Option String
deriving DecidableEq, Repr

/-- A row of the `snapshots` table (`models.rs` `Snapshot`); primary key
`workspace_id`. -/
structure Snapshot where
  workspace_id : String
  data : String
  last_op_id : Option String := none
  updated_at : String
deriving DecidableEq, Repr

/-- The broadcast frame (`models.rs` `WsMessage`). -/
structure WsMessage where
  msg_type : String
  workspace_id : Option String := none
  ops : Option (List Op) := none
  error : Option String := none
deriving DecidableEq, Repr

/-- Request body of `POST /api/ops` (`models.rs` `PushOpsRequest`). -/
structure PushOpsRequest where
  workspace_id : String
  ops : List Op
deriving DecidableEq, Repr

/-- The state of the SQLite database behind `Database` (`db.rs`). -/
structure DbState where
  ops : List Row
  next_rowid : Int
  last_insert_rowid : Int
  snapshots : List Snapshot
deriving DecidableEq, Repr

/-- A freshly opened database after `Database::init`: empty tables, the
AUTOINCREMENT counter at 1, `last_insert_rowid()` at 0. -/
def DbState.init : DbState :=
  { ops := [], next_rowid := 1, last_insert_rowid := 0, snapshots := [] }

/-- Whether the `ops` table already holds a row for `(workspace_id, op_id)`
(the `UNIQUE(workspace_id, op_id)` constraint key). -/
def DbState.hasOp (s : DbState) (workspace_id op_id : String) : Bool :=
  s.ops.any (fun r => r.workspace_id == workspace_id && r.op_id == op_id)

/-- `Database::push_op` (db.rs:47-64): `INSERT OR IGNORE` into `ops`, then
return `conn.last_insert_rowid()`.  When the unique key is already present
the insert is skipped and the connection's `last_insert_rowid` is left as
whatever the previous successful insert set it to. -/
def DbState.push_op (s : DbState) (workspace_id : String) (op : Op) :
    DbState × Int :=
  if s.hasOp workspace_id op.id then
    (s, s.last_insert_rowid)
  else
    let r : Row :=
      { rowid := s.next_rowid, workspace_id := workspace_id, op_id := op.id,
        op_type := op.op_type, payload := op.payload,
        timestamp := op.timestamp, client_id := op.client_id }
    ({ s with
       ops := s.ops ++ [r], next_rowid := s.next_rowid + 1,
       last_insert_rowid := s.next_rowid },
     s.next_rowid)

/-- Reading a row back (db.rs:80-88): the rowid is returned in `db_id`. -/
def Row.toOp (r : Row) : Op :=
  { db_id := some r.rowid, id := r.op_id, op_type := r.op_type,
    payload := r.payload, timestamp := r.timestamp, client_id := r.client_id }

/-- The server-assigned sequence number carried by an op read back from the
store. -/
def Op.seq (o : Op) : Int :=
  o.db_id.getD 0

/-- Insert a row into a list kept ascending by rowid. -/
def insertRow (r : Row) : List Row → List Row
  | [] => [r]
  | x :: xs => if r.rowid ≤ x.rowid then r :: x :: xs else x :: insertRow r xs

/-- Sort rows ascending by rowid (the `ORDER BY id ASC` of a SELECT). -/
def sortRows : List Row → List Row
  | [] => []
  | x :: xs => insertRow x (sortRows xs)

/-- `Database::get_ops` (db.rs:66-93): `after_id.unwrap_or(0)`, then
`SELECT ... WHERE workspace_id = ?1 AND id > ?2 ORDER BY id ASC`. -/
def DbState.get_ops (s : DbState) (workspace_id : String)
    (after_id : Option Int) : List Op :=
  (sortRows (s.ops.filter
      (fun r =>
        r.workspace_id == workspace_id &&
        decide (after_id.getD 0 < r.rowid)))).map
    Row.toOp

/-- `Database::get_snapshot` (db.rs:95-117): SELECT by primary key; the
returned record's `workspace_id` is rebuilt from the argument.  No row
(`QueryReturnedNoRows`) becomes `none`. -/
def DbState.get_snapshot (s : DbState) (workspace_id : String) :
    Option Snapshot :=
  (s.snapshots.find? (fun t => t.workspace_id == workspace_id)).map
    (fun t =>
      { workspace_id := workspace_id, data := t.data,
        last_op_id := t.last_op_id, updated_at := t.updated_at })

/-- `Database::save_snapshot` (db.rs:119-134): `INSERT OR REPLACE` keyed on
the primary key `workspace_id` — any existing row with that key is removed
and the new row stored. -/
def DbState.save_snapshot (s : DbState) (snapshot : Snapshot) : DbState :=
  { s with
    snapshots :=
      s.snapshots.filter
        (fun t => !(t.workspace_id == snapshot.workspace_id)) ++ [snapshot] }

/-- The broadcast frame built for an accepted op (handlers.rs:31-36 and
handlers.rs:137-142): `msg_type = "op"`, the workspace, the single op. -/
def opMsg (workspace_id : String) (op : Op) : WsMessage :=
  { msg_type := "op", workspace_id := some workspace_id, ops := some [op] }

/-- The loop body of the `push_ops` handler (handlers.rs:27-45): for each op
call `push_op`; on `Ok` increment `accepted` and publish the op frame on the
broadcast channel; on `Err` log and continue.  `fails` is the storage-I/O
failure oracle: its head says whether this call's insert errors.  Returns
the final database, the published frames in order, and `accepted`. -/
def push_ops_loop (workspace_id : String) :
    DbState → List Op → List Bool → DbState × List WsMessage × Nat
  | db, [], _ => (db, [], 0)
  | db, op :: rest, fails =>
    if fails.headD false then
      push_ops_loop workspace_id db rest (fails.tailD [])
    else
      let step :=
        push_ops_loop workspace_id (db.push_op workspace_id op).1 rest
          (fails.tailD [])
      (step.1, opMsg workspace_id op :: step.2.1, step.2.2 + 1)

/-- The `push_ops` handler (handlers.rs:21-48): loop over the request's ops
and answer `PushOpsResponse { accepted }` (the response is `Ok` regardless
of per-op failures). -/
def push_ops (db : DbState) (req : PushOpsRequest) (fails : List Bool) :
    DbState × List WsMessage × Nat :=
  push_ops_loop req.workspace_id db req.ops fails

/-- The `"push"` frame branch of `handle_socket` (handlers.rs:133-148): for
each op, `let _ = state.db.push_op(...)` — the result is discarded — and the
broadcast frame is sent unconditionally. -/
def ws_push_loop (workspace_id : String) :
    DbState → List Op → List Bool → DbState × List WsMessage
  | db, [], _ => (db, [])
  | db, op :: rest, fails =>
    let db1 := if fails.headD false then db else (db.push_op workspace_id op).1
    let step := ws_push_loop workspace_id db1 rest (fails.tailD [])
    (step.1, opMsg workspace_id op :: step.2)

/-- The forwarding filter of `handle_socket`'s send task
(handlers.rs:100-114): forward a frame iff it carries a `workspace_id` that
is in the session's subscribed set. -/
def should_send (subscribed : List String) (m : WsMessage) : Bool :=
  match m.workspace_id with
  | some id => subscribed.contains id
  | none => false

/-- What a session with a fixed subscription set forwards out of a stream of
broadcast events. -/
def session_deliver (subscribed : List String) (events : List WsMessage) :
    List WsMessage :=
  events.filter (should_send subscribed)

/-- Delivery over a trace that records, for each event, the session's
subscribed set at the moment the forwarding task handles it. -/
def session_deliver_trace (trace : List (List String × WsMessage)) :
    List WsMessage :=
  (trace.filter (fun p => should_send p.1 p.2)).map Prod.snd

/-- The `get_snapshot` handler (handlers.rs:61-70): `Some` becomes a 200
JSON response, `None` becomes 404; the database is only read. -/
def get_snapshot_handler (db : DbState) (workspace_id : String) :
    DbState × Option Snapshot × Nat :=
  match db.get_snapshot workspace_id with
  | some s => (db, some s, 200)
  | none => (db, none, 404)

/-- The `save_snapshot` handler (handlers.rs:72-82): the body's
`workspace_id` is overwritten with the path parameter before saving; 200 on
success. -/
def save_snapshot_handler (db : DbState) (workspace_id : String)
    (body : Snapshot) : DbState × Nat :=
  ((db.save_snapshot { body with workspace_id := workspace_id }), 200)

/-- Sample ops used in concrete scenarios. -/
def opA : Op := { id := "a1", op_type := "set", payload := "pa", timestamp := "t1" }

def opB : Op := { id := "a2", op_type := "set", payload := "pb", timestamp := "t2" }

def opC : Op := { id := "a3", op_type := "set", payload := "pc", timestamp := "t3" }

def opEmptyId : Op := { id := "", op_type := "set", payload := "pe", timestamp := "t4" }

/-- Well-formedness of the database state, as guaranteed by the schema: the
`ops` rows sit in insertion order with strictly increasing rowids (the
AUTOINCREMENT primary key), every rowid is positive and below the counter,
and the counter is positive. -/
def DbInv (s : DbState) : Prop :=
  s.ops.Pairwise (fun a b => a.rowid < b.rowid) ∧
  (∀ r ∈ s.ops, 0 < r.rowid ∧ r.rowid < s.next_rowid) ∧
  0 < s.next_rowid

theorem dbInv_init : DbInv DbState.init := by
  refine ⟨List.Pairwise.nil, ?_, ?_⟩ <;> simp [DbState.init]

theorem dbInv_push_op (s : DbState) (w : String) (op : Op) (h : DbInv s) :
    DbInv (s.push_op w op).1 := by
  obtain ⟨hp, hb, hn⟩ := h
  unfold DbState.push_op
  split
  · exact ⟨hp, hb, hn⟩
  · dsimp only
    refine ⟨?_, ?_, ?_⟩
    · rw [List.pairwise_append]
      refine ⟨hp, List.pairwise_singleton _ _, ?_⟩
      intro a ha b hb'
      rw [List.mem_singleton] at hb'
      subst hb'
      exact (hb a ha).2
    · intro r hr
      rw [List.mem_append, List.mem_singleton] at hr
      rcases hr with hr | hr
      · exact ⟨(hb r hr).1, lt_trans (hb r hr).2 (lt_add_one _)⟩
      · subst hr
        exact ⟨hn, lt_add_one _⟩
    · exact lt_trans hn (lt_add_one _)

theorem dbInv_save_snapshot (s : DbState) (snap : Snapshot) (h : DbInv s) :
    DbInv (s.save_snapshot snap) := h

/-- Inserting into a list whose head already exceeds the new rowid keeps the
list unchanged apart from consing; a fully sorted list is a fixed point of
the sort. -/
theorem sortRows_eq_self (l : List Row)
    (h : l.Pairwise (fun a b => a.rowid < b.rowid)) : sortRows l = l := by
  induction l with
  | nil => rfl
  | cons x xs ih =>
    rw [List.pairwise_cons] at h
    have hx := h.1
    have hxs := ih h.2
    rw [sortRows, hxs]
    cases xs with
    | nil => rfl
    | cons y ys =>
      have hy : x.rowid ≤ y.rowid := le_of_lt (hx y (List.mem_cons_self y ys))
      simp [insertRow, hy]

theorem toOp_seq (r : Row) : r.toOp.seq = r.rowid := rfl

/-- The cursor is read through `Option.getD 0` before use. -/
theorem get_ops_cursor (s : DbState) (w : String) (c : Option Int) :
    s.get_ops w c = s.get_ops w (some (c.getD 0)) := by
  cases c <;> rfl

/-- Under the schema invariant the `ORDER BY id ASC` sort is the identity on
the filtered rows, so `get_ops` is exactly the filtered row list. -/
theorem get_ops_eq_filter (s : DbState) (w : String) (c : Option Int)
    (h : DbInv s) :
    s.get_ops w c =
      (s.ops.filter
          (fun r => r.workspace_id == w && decide (c.getD 0 < r.rowid))).map
        Row.toOp := by
  unfold DbState.get_ops
  rw [sortRows_eq_self _ (h.1.sublist (List.filter_sublist s.ops))]

/-- Claim C4.  `get_ops` returns exactly the ops stored for the workspace
with sequence strictly above the cursor, in ascending sequence order; it
never returns an op at or below the cursor, never an op from another
workspace, an absent cursor means from the beginning, and an unknown
workspace gives `[]` rather than an error. -/
theorem c4_get_ops_exact (s : DbState) (w : String) (c : Option Int)
    (h : DbInv s) :
    ((s.get_ops w c).Pairwise (fun a b => a.seq < b.seq)) ∧
    (∀ cv : Int, ∀ o ∈ s.get_ops w (some cv), cv < o.seq) ∧
    (∀ o : Op, o ∈ s.get_ops w c ↔
      ∃ r ∈ s.ops, r.workspace_id = w ∧ c.getD 0 < r.rowid ∧ o = r.toOp) ∧
    ((∀ r ∈ s.ops, r.workspace_id ≠ w) → s.get_ops w c = []) ∧
    s.get_ops w none = s.get_ops w (some 0) := by
  refine ⟨?_, ?_, ?_, ?_, rfl⟩
  · rw [get_ops_eq_filter s w c h, List.pairwise_map]
    refine List.Pairwise.imp ?_ (h.1.sublist (List.filter_sublist s.ops))
    intro a b hab
    simpa [toOp_seq] using hab
  · intro cv o ho
    rw [get_ops_eq_filter s w (some cv) h, List.mem_map] at ho
    obtain ⟨r, hr, rfl⟩ := ho
    rw [List.mem_filter, Bool.and_eq_true, decide_eq_true_eq] at hr
    simpa [toOp_seq] using hr.2.2
  · intro o
    rw [get_ops_eq_filter s w c h, List.mem_map]
    constructor
    · rintro ⟨r, hr, rfl⟩
      rw [List.mem_filter, Bool.and_eq_true, decide_eq_true_eq,
        beq_iff_eq] at hr
      exact ⟨r, hr.1, hr.2.1, hr.2.2, rfl⟩
    · rintro ⟨r, hr, hw, hc, rfl⟩
      refine ⟨r, ?_, rfl⟩
      rw [List.mem_filter, Bool.and_eq_true, decide_eq_true_eq, beq_iff_eq]
      exact ⟨hr, hw, hc⟩
  · intro hnone
    rw [get_ops_eq_filter s w c h]
    have : s.ops.filter
        (fun r => r.workspace_id == w && decide (c.getD 0 < r.rowid)) = [] := by
      rw [List.filter_eq_nil_iff]
      intro r hr
      simp [beq_iff_eq, hnone r hr]
    rw [this, List.map_nil]

/-- Closed instance of claim C4 on a concrete two-op store. -/
theorem c4_get_ops_exact_witness :
    DbInv ((DbState.init.push_op "w" opA).1.push_op "w" opB).1 ∧
    ((((DbState.init.push_op "w" opA).1.push_op "w" opB).1.get_ops "w"
        (some 1)).Pairwise (fun a b => a.seq < b.seq)) :=
  ⟨dbInv_push_op _ _ _ (dbInv_push_op _ _ _ dbInv_init),
   (c4_get_ops_exact _ "w" (some 1)
      (dbInv_push_op _ _ _ (dbInv_push_op _ _ _ dbInv_init))).1⟩

/-- Claim C10.  A cursor of 0 and an absent cursor give the same result
(`unwrap_or(0)`), and since every stored rowid is at least 1, both return
the workspace's entire log. -/
theorem c10_zero_cursor_is_full_log (s : DbState) (w : String)
    (h : DbInv s) :
    s.get_ops w (some 0) = s.get_ops w none ∧
    s.get_ops w none =
      (s.ops.filter (fun r => r.workspace_id == w)).map Row.toOp := by
  refine ⟨rfl, ?_⟩
  rw [get_ops_eq_filter s w none h]
  congr 1
  apply List.filter_congr
  intro r hr
  have hpos : (0 : Int) < r.rowid := (h.2.1 r hr).1
  simp [hpos]

/-- Closed instance of claim C10 on a concrete two-op store. -/
theorem c10_zero_cursor_is_full_log_witness :
    DbInv ((DbState.init.push_op "w" opA).1.push_op "w" opB).1 ∧
    ((DbState.init.push_op "w" opA).1.push_op "w" opB).1.get_ops "w" (some 0) =
      ((DbState.init.push_op "w" opA).1.push_op "w" opB).1.get_ops "w" none :=
  ⟨dbInv_push_op _ _ _ (dbInv_push_op _ _ _ dbInv_init),
   (c10_zero_cursor_is_full_log _ "w"
      (dbInv_push_op _ _ _ (dbInv_push_op _ _ _ dbInv_init))).1⟩

/-- After one save through the handler, the rows stored under the path's
workspace key are exactly the saved record, whose `workspace_id` is the path
parameter. -/
theorem save_snapshot_key_rows (db : DbState) (w : String) (body : Snapshot) :
    (save_snapshot_handler db w body).1.snapshots.filter
        (fun t => t.workspace_id == w) = [{ body with workspace_id := w }] := by
  unfold save_snapshot_handler DbState.save_snapshot
  dsimp only
  rw [List.filter_append, List.filter_filter]
  have h1 : db.snapshots.filter
      (fun t => (t.workspace_id == w) && !(t.workspace_id == w)) = [] := by
    rw [List.filter_eq_nil_iff]
    intro t _
    simp
  rw [h1]
  simp

/-- Reading back right after a save through the handler returns the body
with the path's workspace id. -/
theorem get_snapshot_after_save (db : DbState) (w : String) (body : Snapshot) :
    (save_snapshot_handler db w body).1.get_snapshot w =
      some { body with workspace_id := w } := by
  unfold save_snapshot_handler DbState.save_snapshot DbState.get_snapshot
  dsimp only
  rw [List.find?_append]
  have h1 : (db.snapshots.filter (fun t => !(t.workspace_id == w))).find?
      (fun t => t.workspace_id == w) = none := by
    rw [List.find?_eq_none]
    intro t ht
    rw [List.mem_filter] at ht
    simpa using ht.2
  rw [h1]
  simp

/-- Claim C5.  Saving a snapshot through the handler is a last-write-wins
upsert: after two saves for the same workspace there is exactly one stored
snapshot for it, reading it back reflects only the latest write, and every
row stored under the workspace key carries the path's `workspace_id` and the
body's data — the path parameter overrides whatever the body said. -/
theorem c5_snapshot_upsert (db : DbState) (w : String) (b1 b2 : Snapshot) :
    ((save_snapshot_handler (save_snapshot_handler db w b1).1 w
        b2).1.snapshots.filter (fun t => t.workspace_id == w)).length = 1 ∧
    (save_snapshot_handler (save_snapshot_handler db w b1).1 w
        b2).1.get_snapshot w = some { b2 with workspace_id := w } ∧
    (∀ db0 : DbState, ∀ body : Snapshot,
      { body with workspace_id := w } ∈
        (save_snapshot_handler db0 w body).1.snapshots ∧
      ∀ t ∈ (save_snapshot_handler db0 w body).1.snapshots,
        t.workspace_id = w → t = { body with workspace_id := w }) ∧
    (∀ (db0 : DbState) (body : Snapshot),
      (save_snapshot_handler db0 w body).2 = 200) := by
  refine ⟨?_, get_snapshot_after_save _ w b2, ?_, fun db0 body => rfl⟩
  · rw [save_snapshot_key_rows]
    rfl
  · intro db0 body
    constructor
    · unfold save_snapshot_handler DbState.save_snapshot
      dsimp only
      rw [List.mem_append]
      exact Or.inr (List.mem_singleton_self _)
    · intro t ht hw
      have hmem : t ∈ (save_snapshot_handler db0 w body).1.snapshots.filter
          (fun u => u.workspace_id == w) := by
        rw [List.mem_filter]
        exact ⟨ht, by simp [hw]⟩
      rw [save_snapshot_key_rows, List.mem_singleton] at hmem
      exact hmem

/-- Closed instance of claim C5: two saves with different data on a fresh
store. -/
theorem c5_snapshot_upsert_witness :
    ({ workspace_id := "proj1", data := "Y", updated_at := "t6" } : Snapshot) ∈
      (save_snapshot_handler DbState.init "proj1"
        { workspace_id := "body-ws", data := "Y", updated_at := "t6" }).1.snapshots :=
  (c5_snapshot_upsert DbState.init "proj1"
      { workspace_id := "x", data := "X", updated_at := "t5" }
      { workspace_id := "x", data := "X", updated_at := "t5" }).2.2.1
    DbState.init
    { workspace_id := "body-ws", data := "Y", updated_at := "t6" } |>.1

/-- Claim C9.  When no snapshot is stored for a workspace, the store
returns `none` and the HTTP handler answers 404 with the database
unchanged; no error is raised. -/
theorem c9_snapshot_not_found (db : DbState) (w : String)
    (h : ∀ t ∈ db.snapshots, t.workspace_id ≠ w) :
    db.get_snapshot w = none ∧
    get_snapshot_handler db w = (db, none, 404) := by
  have hf : db.snapshots.find? (fun t => t.workspace_id == w) = none := by
    rw [List.find?_eq_none]
    intro t ht
    simp [h t ht]
  have h1 : db.get_snapshot w = none := by
    unfold DbState.get_snapshot
    rw [hf]
    rfl
  refine ⟨h1, ?_⟩
  unfold get_snapshot_handler
  rw [h1]

/-- Closed instance of claim C9: an unknown workspace on a fresh store. -/
theorem c9_snapshot_not_found_witness :
    (∀ t ∈ DbState.init.snapshots, t.workspace_id ≠ "unknown-workspace") ∧
    (DbState.init.get_snapshot "unknown-workspace" = none ∧
      get_snapshot_handler DbState.init "unknown-workspace" =
        (DbState.init, none, 404)) :=
  ⟨by decide, c9_snapshot_not_found DbState.init "unknown-workspace" (by decide)⟩

/-- The ops of a batch whose `push_op` call returned `Ok` (the I/O failure
oracle did not fire): exactly the ops the `push_ops` handler counts and
publishes.  Every op newly accepted into the store during the batch is among
them (a failed call accepts nothing). -/
def keptOps : List Op → List Bool → List Op
  | [], _ => []
  | op :: rest, fails =>
    if fails.headD false then keptOps rest (fails.tailD [])
    else op :: keptOps rest (fails.tailD [])

/-- The frames the `push_ops` handler publishes are exactly the op frames of
the kept ops, in batch order. -/
theorem push_ops_loop_events (w : String) (ops : List Op) :
    ∀ (fails : List Bool) (db : DbState),
      (push_ops_loop w db ops fails).2.1 = (keptOps ops fails).map (opMsg w) := by
  induction ops with
  | nil => intro fails db; rfl
  | cons op rest ih =>
    intro fails db
    match fails with
    | [] => simp [push_ops_loop, keptOps, ih]
    | f :: fr => cases f <;> simp [push_ops_loop, keptOps, ih]

/-- The handler's `accepted` count is the number of kept ops. -/
theorem push_ops_loop_accepted (w : String) (ops : List Op) :
    ∀ (fails : List Bool) (db : DbState),
      (push_ops_loop w db ops fails).2.2 = (keptOps ops fails).length := by
  induction ops with
  | nil => intro fails db; rfl
  | cons op rest ih =>
    intro fails db
    match fails with
    | [] => simp [push_ops_loop, keptOps, ih]
    | f :: fr => cases f <;> simp [push_ops_loop, keptOps, ih]

/-- The websocket `push` branch publishes a frame for every op of the batch,
whether or not its append succeeded. -/
theorem ws_push_loop_events (w : String) (ops : List Op) :
    ∀ (fails : List Bool) (db : DbState),
      (ws_push_loop w db ops fails).2 = ops.map (opMsg w) := by
  induction ops with
  | nil => intro fails db; rfl
  | cons op rest ih =>
    intro fails db
    simp [ws_push_loop, ih]

theorem should_send_opMsg (subs : List String) (w : String) (op : Op) :
    should_send subs (opMsg w op) = subs.contains w := rfl

/-- Claim C6.  A session forwards a broadcast frame only if the frame's
workspace is in its subscribed set at delivery time; a session subscribed to
`w` receives the frame of every op of a batch whose append call succeeded on
either submission path — in particular of every op newly accepted into `w` —
and a session subscribed only to a different workspace receives nothing from
the batch. -/
theorem c6_fanout_correct :
    (∀ (trace : List (List String × WsMessage)) (m : WsMessage),
      m ∈ session_deliver_trace trace →
        ∃ subs, (subs, m) ∈ trace ∧ should_send subs m = true) ∧
    (∀ (subs : List String) (w : String) (db : DbState) (ops : List Op)
        (fails : List Bool) (op : Op), w ∈ subs → op ∈ keptOps ops fails →
      opMsg w op ∈ session_deliver subs (push_ops_loop w db ops fails).2.1) ∧
    (∀ (subs : List String) (w : String) (db : DbState) (ops : List Op)
        (fails : List Bool) (op : Op), w ∈ subs → op ∈ ops →
      opMsg w op ∈ session_deliver subs (ws_push_loop w db ops fails).2) ∧
    (∀ (v w : String) (db : DbState) (ops : List Op) (fails : List Bool),
      v ≠ w →
      session_deliver [v] (push_ops_loop w db ops fails).2.1 = [] ∧
      session_deliver [v] (ws_push_loop w db ops fails).2 = []) := by
  have hsingle : ∀ (v w : String), v ≠ w → ∀ (l : List WsMessage) (f : Op → WsMessage),
      (∀ m ∈ l, ∃ op, m = opMsg w op) → session_deliver [v] l = [] := by
    intro v w hvw l _ hl
    unfold session_deliver
    rw [List.filter_eq_nil_iff]
    intro m hm
    obtain ⟨op, rfl⟩ := hl m hm
    rw [should_send_opMsg]
    intro hc
    have hmem : w ∈ [v] := List.elem_iff.mp hc
    rw [List.mem_singleton] at hmem
    exact hvw hmem.symm
  refine ⟨?_, ?_, ?_, ?_⟩
  · intro trace m hm
    unfold session_deliver_trace at hm
    rw [List.mem_map] at hm
    obtain ⟨p, hp, rfl⟩ := hm
    rw [List.mem_filter] at hp
    exact ⟨p.1, by simpa using hp.1, hp.2⟩
  · intro subs w db ops fails op hw hop
    rw [push_ops_loop_events]
    unfold session_deliver
    rw [List.mem_filter]
    refine ⟨List.mem_map_of_mem _ hop, ?_⟩
    rw [should_send_opMsg]
    exact List.elem_eq_true_of_mem hw
  · intro subs w db ops fails op hw hop
    rw [ws_push_loop_events]
    unfold session_deliver
    rw [List.mem_filter]
    refine ⟨List.mem_map_of_mem _ hop, ?_⟩
    rw [should_send_opMsg]
    exact List.elem_eq_true_of_mem hw
  · intro v w db ops fails hvw
    constructor
    · rw [push_ops_loop_events]
      refine hsingle v w hvw _ (opMsg w) ?_
      intro m hm
      rw [List.mem_map] at hm
      obtain ⟨op, _, rfl⟩ := hm
      exact ⟨op, rfl⟩
    · rw [ws_push_loop_events]
      refine hsingle v w hvw _ (opMsg w) ?_
      intro m hm
      rw [List.mem_map] at hm
      obtain ⟨op, _, rfl⟩ := hm
      exact ⟨op, rfl⟩

/-- Closed instance of claim C6: a subscriber to `proj1` receives the frame
of a newly accepted op; a subscriber to only `proj2` receives nothing. -/
theorem c6_fanout_correct_witness :
    opMsg "proj1" opC ∈
      session_deliver ["proj1"] (push_ops_loop "proj1" DbState.init [opC] []).2.1 ∧
    session_deliver ["proj2"] (push_ops_loop "proj1" DbState.init [opC] []).2.1 = [] :=
  ⟨c6_fanout_correct.2.1 ["proj1"] "proj1" DbState.init [opC] [] opC
      (by decide) (by decide),
   (c6_fanout_correct.2.2.2 "proj2" "proj1" DbState.init [opC] [] (by decide)).1⟩

/-- Claim C7 counterexample.  The claim's own scenario — a batch of one
malformed (empty-id) op and two valid ops, with no storage failure — does
not return `accepted = 2`: the code performs no validation, so the
malformed op is itself persisted and counted and the batch returns
`accepted = 3`. -/
theorem c7_malformed_batch_counterexample :
    (push_ops DbState.init ⟨"w", [opEmptyId, opA, opB]⟩ []).2.2 = 3 ∧
    (push_ops DbState.init ⟨"w", [opEmptyId, opA, opB]⟩ []).2.2 ≠ 2 ∧
    (push_ops DbState.init ⟨"w", [opEmptyId, opA, opB]⟩ []).1.hasOp "w" ""
      = true := by
  refine ⟨rfl, by decide, rfl⟩

/-- Claim C7, amended: only a per-op failure to persist (a store-level
error, not a malformed op — those are accepted like any other op) is logged
and skipped without aborting the rest of the batch or failing the batch
response.  The loop on a failing head is exactly the loop on the tail, and
the concrete batch of one failing op (`a3`, its insert errors) and two valid
ops returns `accepted = 2` with both valid ops retrievable through `get_ops`
afterwards. -/
theorem c7_batch_partial_acceptance :
    (∀ (w : String) (db : DbState) (op : Op) (ops : List Op)
        (fails : List Bool),
      push_ops_loop w db (op :: ops) (true :: fails) =
        push_ops_loop w db ops fails) ∧
    (push_ops DbState.init ⟨"w", [opC, opA, opB]⟩ [true, false, false]).2.2 = 2 ∧
    ((push_ops DbState.init ⟨"w", [opC, opA, opB]⟩
        [true, false, false]).1.get_ops "w" none).map Op.id = ["a1", "a2"] := by
  exact ⟨fun w db op ops fails => rfl, rfl, rfl⟩

/-- Claim C1.  The claim requires that a second `push_op` of an already
stored `(workspace_id, op.id)` pair inserts no duplicate row and returns the
sequence assigned at first acceptance, never a value derived from
last-inserted-row bookkeeping.  The code violates the second half: after
accepting `a1` (sequence 1) and `a2` (sequence 2) in workspace `w`,
re-pushing `a1` inserts no row but returns `last_insert_rowid() = 2`, the
sequence of the unrelated op `a2`, not the original sequence 1. -/
theorem c1_push_op_returns_stale_rowid :
    (DbState.init.push_op "w" opA).2 = 1 ∧
    (((DbState.init.push_op "w" opA).1.push_op "w" opB).1.push_op "w" opA).2 = 2 ∧
    (((DbState.init.push_op "w" opA).1.push_op "w" opB).1.push_op "w" opA).1.ops.length = 2 := by
  refine ⟨rfl, ?_, rfl⟩
  rfl

/-- Claim C2.  The claim requires the `push_ops` response's `accepted` field
to count only newly accepted ops, so re-submitting one already-stored op
must return `accepted: 0`.  The handler increments `accepted` on every `Ok`
from `push_op`, and `push_op` reports `Ok` for a skipped duplicate too:
re-submitting `a1` to `proj1` yields `accepted = 1`, though the store still
holds exactly one entry for `a1`. -/
theorem c2_accepted_counts_duplicates :
    (push_ops (push_ops DbState.init ⟨"proj1", [opA]⟩ []).1 ⟨"proj1", [opA]⟩ []).2.2 = 1 ∧
    ((push_ops (push_ops DbState.init ⟨"proj1", [opA]⟩ []).1 ⟨"proj1", [opA]⟩ []).1.get_ops
        "proj1" none).length = 1 := by
  exact ⟨rfl, rfl⟩

/-- Claim C3.  The claim requires an op to be published to the broadcast hub
iff its append was a true first acceptance.  The code violates both halves:
on the HTTP path, re-submitting the already-stored `a1` publishes the op
frame again (any `Ok` from `push_op` publishes, duplicates included); on the
websocket `push` path the append result is discarded and the frame is
published even when the append fails (failure oracle `[true]`). -/
theorem c3_republish_and_publish_on_failure :
    (push_ops (push_ops DbState.init ⟨"proj1", [opA]⟩ []).1 ⟨"proj1", [opA]⟩ []).2.1 =
      [opMsg "proj1" opA] ∧
    (ws_push_loop "w" DbState.init [opA] [true]).2 = [opMsg "w" opA] ∧
    (ws_push_loop "w" DbState.init [opA] [true]).1 = DbState.init := by
  exact ⟨rfl, rfl, rfl⟩

/-- Claim C8.  The claim requires a submission with an empty `op.id` (or
empty `workspace_id`) to be rejected as a validation error with no side
effects.  Neither `push_op` nor the `push_ops` handler validates anything:
an op with `id = ""` is persisted, counted as accepted, and broadcast. -/
theorem c8_no_validation_of_empty_id :
    (push_ops DbState.init ⟨"w", [opEmptyId]⟩ []).2.2 = 1 ∧
    (push_ops DbState.init ⟨"w", [opEmptyId]⟩ []).1.hasOp "w" "" = true ∧
    (push_ops DbState.init ⟨"w", [opEmptyId]⟩ []).2.1 = [opMsg "w" opEmptyId] := by
  exact ⟨rfl, rfl, rfl⟩

end Scratchpad
